import Mathlib

/-!
Shallow embedding of the authentication and authorization core of the
pandemic-dashboard repository: the user and session stores, the
authenticator, the session validator, the access-policy checks, and the
FastAPI endpoints of `api_pandemies.py` that compose them.

Conventions of the embedding:
* the PostgreSQL tables `users` and `sessions` become lists of records in
  a `DB` value; SQL `SELECT ... fetchone` becomes `List.find?` /
  `List.filterMap ... |>.head?`, `DELETE` becomes `List.filter`;
* wall-clock time (`NOW()`, `datetime.utcnow()`) is an explicit `now : Nat`
  parameter measured in hours, so `expires_at > NOW()` is `now < expires_at`;
* bcrypt (`bcrypt.checkpw`, `hash_password`) is an external primitive and is
  passed in as an explicit function parameter;
* `secrets.token_urlsafe` and the SERIAL primary key are external sources of
  fresh values and are passed in as explicit parameters;
* `os.getenv('COUNTRY', 'FRANCE')` becomes `(envCountry : Option String).getD "FRANCE"`;
* `raise HTTPException(status, detail)` becomes `Except.error ⟨status, detail⟩`.
-/

namespace PandemicAuth

/-- A row of the `users` table (columns as selected across `auth.py`):
`id_user, username, password_hash, country, role, email, full_name,
is_active, last_login`. -/
structure User where
  id_user : Nat
  username : String
  password_hash : String
  country : String
  role : String
  email : Option String
  full_name : Option String
  is_active : Bool
  last_login : Option Nat
deriving DecidableEq

/-- A row of the `sessions` table: `token, user_id, expires_at, ip_address,
user_agent`. -/
structure Session where
  token : String
  user_id : Nat
  expires_at : Nat
  ip_address : Option String
  user_agent : Option String
deriving DecidableEq

/-- The persistent store: the `users` and `sessions` tables. -/
structure DB where
  users : List User
  sessions : List Session
deriving DecidableEq

/-- A raised `HTTPException(status_code, detail)`. -/
structure HTTPError where
  status : Nat
  detail : String
deriving DecidableEq

/-- The parts of an inbound HTTP request that the auth layer reads: the
`auth_token` cookie and the `Authorization` header. -/
structure ApiRequest where
  cookie_auth_token : Option String
  authorization : Option String
deriving DecidableEq

instance {ε α : Type} [DecidableEq ε] [DecidableEq α] : DecidableEq (Except ε α) :=
  fun a b =>
    match a, b with
    | Except.ok x, Except.ok y =>
      if h : x = y then isTrue (by rw [h]) else isFalse (by simp [h])
    | Except.error x, Except.error y =>
      if h : x = y then isTrue (by rw [h]) else isFalse (by simp [h])
    | Except.ok _, Except.error _ => isFalse (by simp)
    | Except.error _, Except.ok _ => isFalse (by simp)

/-- Python `s.startswith(pre)`: character-list model of the string primitive
(kernel-reducible, unlike `String.startsWith`). -/
def pyStartsWith (s pre : String) : Bool :=
  s.toList.take pre.toList.length == pre.toList

/-- Splitting a character list on every single space character, the way
Python `s.split(' ')` does (consecutive separators produce empty chunks). -/
def splitSpacesAux : List Char → List (List Char)
  | [] => [[]]
  | c :: cs =>
    let rest := splitSpacesAux cs
    if c = ' ' then
      [] :: rest
    else
      match rest with
      | r :: rs => (c :: r) :: rs
      | [] => [[c]]

/-- Python `s.split(' ')`: character-list model of the string primitive. -/
def pySplitSpace (s : String) : List String :=
  (splitSpacesAux s.toList).map String.mk

/-- Python `s.lower()`: character-list model of the string primitive. -/
def pyToLower (s : String) : String :=
  String.mk (s.toList.map Char.toLower)

/-- `JWT_EXPIRE_HOURS = 24` (auth.py line 17); doubles as the session TTL in
hours used by `create_session`. -/
def JWT_EXPIRE_HOURS : Nat := 24

/-- Error of `login` (api_pandemies.py lines 93-97). -/
def invalidCredentialsError : HTTPError :=
  ⟨401, "Invalid credentials or wrong country"⟩

/-- Error of `require_auth` (auth.py lines 192-197). -/
def authRequiredError : HTTPError :=
  ⟨401, "Authentication required"⟩

/-- Error of the admin-role guard in the admin endpoints
(api_pandemies.py lines 163-164, 179-180, 219-220). -/
def adminRequiredError : HTTPError :=
  ⟨403, "Admin access required"⟩

/-- Error of `require_country` (auth.py lines 220-224). -/
def tenantMismatchError (apiCountry userCountry : String) : HTTPError :=
  ⟨403, "Access denied: This is " ++ apiCountry ++ " instance, you belong to "
        ++ userCountry⟩

/-- Error of `delete_user` when the target is in another country
(auth.py lines 305-306). -/
def foreignTenantError : HTTPError :=
  ⟨403, "Can only delete users from your country"⟩

/-- Error of `delete_user` when the target has an `admin_` role
(auth.py lines 308-309). -/
def protectedRoleError : HTTPError :=
  ⟨403, "Cannot delete admin users"⟩

/-- Error of `create_user` on a duplicate username (auth.py lines 269-270). -/
def duplicateUsernameError : HTTPError :=
  ⟨400, "Username already exists"⟩

/-- Error of `delete_user` on an unknown id (auth.py lines 302-303). -/
def userNotFoundError : HTTPError :=
  ⟨404, "User not found"⟩

/-- Error of `create_new_user` on a role outside the valid set
(api_pandemies.py lines 187-191). -/
def invalidRoleError (country : String) (validRoles : List String) : HTTPError :=
  ⟨400, "Invalid role. Valid roles for " ++ country ++ ": "
        ++ String.intercalate ", " validRoles⟩

/-- `create_session` (auth.py lines 72-91): inserts a session row with
`expires_at = utcnow + JWT_EXPIRE_HOURS` and returns the token. The fresh
random token from `secrets.token_urlsafe(32)` is the `token` parameter. -/
def create_session (db : DB) (now : Nat) (token : String) (user_id : Nat)
    (ip_address : Option String) (user_agent : Option String) : String × DB :=
  (token,
   { db with sessions :=
       db.sessions ++ [⟨token, user_id, now + JWT_EXPIRE_HOURS, ip_address, user_agent⟩] })

/-- The SQL join of `verify_session` (auth.py lines 99-105): sessions with the
given token and `expires_at > NOW()`, joined to their owning user row;
`fetchone` takes the first result. -/
def sessionJoin (db : DB) (now : Nat) (token : String) : Option (User × Session) :=
  (db.sessions.filterMap (fun s =>
    if s.token == token && decide (now < s.expires_at) then
      (db.users.find? (fun u => u.id_user == s.user_id)).map (fun u => (u, s))
    else
      none)).head?

/-- `verify_session` (auth.py lines 93-113): returns the joined user data if a
matching unexpired session exists and the owning user is active, else `none`. -/
def verify_session (db : DB) (now : Nat) (token : String) : Option User :=
  match sessionJoin db now token with
  | some (u, _) => if u.is_active then some u else none
  | none => none

/-- `delete_session` (auth.py lines 115-124): `DELETE FROM sessions WHERE token = %s`. -/
def delete_session (db : DB) (token : String) : DB :=
  { db with sessions := db.sessions.filter (fun s => !(s.token == token)) }

/-- `authenticate_user` (auth.py lines 130-160): looks up the user by
username AND country AND `is_active = TRUE`; if absent returns `none`;
otherwise verifies the password with bcrypt (`checkpw`, passed in as the
external primitive), updates `last_login` on success, and returns the user.
Returns the possibly-updated store alongside the result. -/
def authenticate_user (checkpw : String → String → Bool) (db : DB) (now : Nat)
    (username password country : String) : Option User × DB :=
  match db.users.find? (fun u =>
      u.username == username && u.country == country && u.is_active) with
  | none => (none, db)
  | some u =>
    if checkpw password u.password_hash then
      (some u,
       { db with users := db.users.map (fun v =>
           if v.id_user == u.id_user then { v with last_login := some now } else v) })
    else
      (none, db)

/-- `get_current_user`, token-extraction part (auth.py lines 171-184): take the
`auth_token` cookie; if falsy, take the `Authorization` header when it starts
with the literal `"Bearer "` and split out the second space-separated chunk;
a falsy (empty) final token yields `none`.  Python truthiness of strings is
modelled by the explicit `= ""` tests. -/
def effectiveToken (req : ApiRequest) : Option String :=
  let fromCookie : Option String :=
    match req.cookie_auth_token with
    | some t => if t = "" then none else some t
    | none => none
  let token : Option String :=
    match fromCookie with
    | some t => some t
    | none =>
      match req.authorization with
      | some h =>
        if pyStartsWith h "Bearer " then some ((pySplitSpace h).getD 1 "") else none
      | none => none
  match token with
  | some t => if t = "" then none else some t
  | none => none

/-- `get_current_user` (auth.py lines 171-187): extract the token from the
request, then check the session in the store. -/
def get_current_user (db : DB) (now : Nat) (req : ApiRequest) : Option User :=
  match effectiveToken req with
  | some t => verify_session db now t
  | none => none

/-- `require_auth` (auth.py lines 189-198): raises 401 when `get_current_user`
finds no user. -/
def require_auth (db : DB) (now : Nat) (req : ApiRequest) : Except HTTPError User :=
  match get_current_user db now req with
  | some u => Except.ok u
  | none => Except.error authRequiredError

/-- `require_country` (auth.py lines 216-226): reads
`os.getenv('COUNTRY', 'FRANCE')` and raises 403 when the authenticated user's
country differs from it; otherwise returns the user unchanged. -/
def require_country (envCountry : Option String) (current_user : User) :
    Except HTTPError User :=
  let api_country := envCountry.getD "FRANCE"
  if current_user.country ≠ api_country then
    Except.error (tenantMismatchError api_country current_user.country)
  else
    Except.ok current_user

/-- `create_user` (auth.py lines 260-288): fails when the username already
exists anywhere in the `users` table (the lookup has no country filter),
otherwise hashes the password (external `hash_password`, passed in) and
inserts the row. `newId` is the SERIAL key assigned by the database; the
`is_active` column takes its schema default TRUE. -/
def create_user (hashfn : String → String) (db : DB) (newId : Nat)
    (username password country role : String)
    (email full_name : Option String) : Except HTTPError (User × DB) :=
  if (db.users.find? (fun u => u.username == username)).isSome then
    Except.error duplicateUsernameError
  else
    let u : User :=
      { id_user := newId, username := username, password_hash := hashfn password,
        country := country, role := role, email := email, full_name := full_name,
        is_active := true, last_login := none }
    Except.ok (u, { db with users := db.users ++ [u] })

/-- `delete_user` (auth.py lines 290-318): 404 when the id is unknown, 403
`foreignTenantError` when the target's country differs from the caller's,
403 `protectedRoleError` when the target's role starts with `admin_`;
otherwise deletes the user row (the schema's ON DELETE CASCADE removes the
user's sessions, per the comment at line 311). -/
def delete_user (db : DB) (user_id : Nat) (admin_country : String) :
    Except HTTPError (Bool × DB) :=
  match db.users.find? (fun u => u.id_user == user_id) with
  | none => Except.error userNotFoundError
  | some u =>
    if u.country ≠ admin_country then
      Except.error foreignTenantError
    else if pyStartsWith u.role "admin_" then
      Except.error protectedRoleError
    else
      Except.ok (true,
        { users := db.users.filter (fun v => !(v.id_user == user_id)),
          sessions := db.sessions.filter (fun s => !(s.user_id == user_id)) })

/-- The public user view returned by a successful `login`
(api_pandemies.py lines 119-127), together with the session token set in the
`auth_token` cookie. -/
structure LoginResponse where
  token : String
  username : String
  country : String
  role : String
  full_name : Option String
deriving DecidableEq

/-- Endpoint `POST /auth/login` (api_pandemies.py lines 86-127): reads
`COUNTRY` from the environment (default `FRANCE`), authenticates, raises 401
on failure, and on success creates a session whose token goes into the
cookie and the response. `freshToken` is the random token drawn inside
`create_session`. -/
def login (checkpw : String → String → Bool) (envCountry : Option String)
    (db : DB) (now : Nat) (freshToken : String) (username password : String)
    (ip_address : Option String) (user_agent : Option String) :
    Except HTTPError LoginResponse × DB :=
  let country := envCountry.getD "FRANCE"
  match authenticate_user checkpw db now username password country with
  | (none, db1) => (Except.error invalidCredentialsError, db1)
  | (some u, db1) =>
    let (session_token, db2) := create_session db1 now freshToken u.id_user ip_address user_agent
    (Except.ok
      { token := session_token, username := u.username, country := u.country,
        role := u.role, full_name := u.full_name }, db2)

/-- Endpoint `POST /auth/logout` (api_pandemies.py lines 129-137): reads the
token from the `auth_token` cookie only; if the cookie is truthy the session
is deleted; the response is `"Logout successful"` unconditionally. -/
def logout (db : DB) (req : ApiRequest) : String × DB :=
  let db1 :=
    match req.cookie_auth_token with
    | some t => if t = "" then db else delete_session db t
    | none => db
  ("Logout successful", db1)

/-- Endpoint `GET /auth/me` (api_pandemies.py lines 139-151): `require_auth`
then `require_country`, returning the public view of the user. -/
def get_current_user_info (envCountry : Option String) (db : DB) (now : Nat)
    (req : ApiRequest) : Except HTTPError (String × String × String) := do
  let cu ← require_auth db now req
  let cu ← require_country envCountry cu
  Except.ok (cu.username, cu.country, cu.role)

/-- Body of a `POST /auth/users` request (api_pandemies.py lines 66-71). -/
structure CreateUserRequest where
  username : String
  password : String
  role : String
  email : Option String
  full_name : Option String
deriving DecidableEq

/-- Endpoint `POST /auth/users` (api_pandemies.py lines 169-207):
`require_auth`, `require_country`, admin-role guard, then the role must be one
of `chercheur_<country.lower>` / `admin_<country.lower>` for the calling
admin's own country, and the new user is created in that country. -/
def create_new_user (hashfn : String → String) (envCountry : Option String)
    (db : DB) (newId : Nat) (now : Nat) (req : ApiRequest)
    (user_data : CreateUserRequest) : Except HTTPError (User × DB) := do
  let cu ← require_auth db now req
  let cu ← require_country envCountry cu
  if !(pyStartsWith cu.role "admin_") then
    Except.error adminRequiredError
  else
    let country := cu.country
    let valid_roles := ["chercheur_" ++ pyToLower country, "admin_" ++ pyToLower country]
    if !(valid_roles.contains user_data.role) then
      Except.error (invalidRoleError country valid_roles)
    else
      create_user hashfn db newId user_data.username user_data.password country
        user_data.role user_data.email user_data.full_name

/-- Endpoint `DELETE /auth/users/{user_id}` (api_pandemies.py lines 209-229):
`require_auth`, `require_country`, admin-role guard, then `delete_user` with
the caller's country. -/
def delete_user_endpoint (envCountry : Option String) (db : DB) (now : Nat)
    (req : ApiRequest) (user_id : Nat) : Except HTTPError (Bool × DB) := do
  let cu ← require_auth db now req
  let cu ← require_country envCountry cu
  if !(pyStartsWith cu.role "admin_") then
    Except.error adminRequiredError
  else
    delete_user db user_id cu.country

/-- Concrete fixture: an active researcher of tenant FRANCE whose bcrypt hash
is modelled as `"H" ++ password` with password `"alicepw"`. -/
def aliceFR : User :=
  ⟨1, "alice", "Halicepw", "FRANCE", "chercheur_france", none, none, true, none⟩

/-- Concrete fixture: an active admin of tenant FRANCE. -/
def adminFR : User :=
  ⟨2, "boss", "Hbosspw", "FRANCE", "admin_france", none, none, true, none⟩

/-- Concrete fixture: an active admin of tenant SWITZERLAND. -/
def adminCH : User :=
  ⟨3, "chboss", "Hchpw", "SWITZERLAND", "admin_switzerland", none, none, true, none⟩

/-- Concrete fixture store: the three users above and one session for the
FRANCE admin, expiring at hour 100. -/
def dbFix : DB := ⟨[aliceFR, adminFR, adminCH], [⟨"TOK", 2, 100, none, none⟩]⟩

/-- Concrete stand-in for the external bcrypt pair: `hashFix` prepends `"H"`,
`checkFix` accepts exactly the matching hash. -/
def hashFix : String → String := fun p => "H" ++ p

/-- Companion checker to `hashFix`. -/
def checkFix : String → String → Bool := fun p h => "H" ++ p == h

/-- Helper: bind on a successful `Except` applies the continuation. -/
theorem except_bind_ok {ε α β : Type} (a : α) (f : α → Except ε β) :
    (Except.ok a >>= f : Except ε β) = f a := rfl

/-- Helper: bind on a failed `Except` short-circuits. -/
theorem except_bind_error {ε α β : Type} (e : ε) (f : α → Except ε β) :
    (Except.error e >>= f : Except ε β) = Except.error e := rfl

/-- Helper: `require_country` succeeds exactly on a country match, returning
the user unchanged. -/
theorem require_country_ok_iff (envCountry : Option String) (u v : User) :
    require_country envCountry u = Except.ok v ↔
      (u.country = envCountry.getD "FRANCE" ∧ v = u) := by
  unfold require_country
  by_cases hc : u.country = envCountry.getD "FRANCE" <;> simp [hc, eq_comm]

/-- Helper: `require_country` rejects a country mismatch with the 403
tenant-mismatch error. -/
theorem require_country_mismatch (envCountry : Option String) (u : User)
    (h : u.country ≠ envCountry.getD "FRANCE") :
    require_country envCountry u =
      Except.error (tenantMismatchError (envCountry.getD "FRANCE") u.country) := by
  unfold require_country
  simp [h]

/-- Helper: `require_auth` succeeds exactly when the token of the request
resolves to a user. -/
theorem require_auth_ok_iff (db : DB) (now : Nat) (req : ApiRequest) (u : User) :
    require_auth db now req = Except.ok u ↔ get_current_user db now req = some u := by
  unfold require_auth
  cases h : get_current_user db now req <;> simp

/-- C1: tenant enforcement fails closed.  `require_country` returns the
authenticated user iff the user's country equals the instance's configured
country (`COUNTRY` env, default `FRANCE`), and on any mismatch rejects with
the HTTP-403 tenant-mismatch error; the composition into a protected endpoint
(`get_current_user_info`) rejects with the same 403 even when the presented
session is valid (resolves to a user). -/
theorem tenant_enforcement_fails_closed (envCountry : Option String) (u : User) :
    (∀ v, require_country envCountry u = Except.ok v ↔
        (u.country = envCountry.getD "FRANCE" ∧ v = u)) ∧
    (u.country ≠ envCountry.getD "FRANCE" →
      require_country envCountry u =
        Except.error (tenantMismatchError (envCountry.getD "FRANCE") u.country) ∧
      (tenantMismatchError (envCountry.getD "FRANCE") u.country).status = 403) ∧
    (∀ db now req, get_current_user db now req = some u →
      u.country ≠ envCountry.getD "FRANCE" →
      get_current_user_info envCountry db now req =
        Except.error (tenantMismatchError (envCountry.getD "FRANCE") u.country)) := by
  refine ⟨fun v => require_country_ok_iff envCountry u v,
          fun h => ⟨require_country_mismatch envCountry u h, rfl⟩, ?_⟩
  intro db now req hresolve hmm
  unfold get_current_user_info
  rw [(require_auth_ok_iff db now req u).mpr hresolve]
  rw [except_bind_ok, require_country_mismatch envCountry u hmm]
  rfl

/-- Witness for C1 at a concrete input: a SWITZERLAND admin with a valid
session on the FRANCE instance is rejected by the tenant check with 403. -/
theorem tenant_enforcement_fails_closed_witness :
    require_country (some "FRANCE") adminCH =
      Except.error (tenantMismatchError "FRANCE" "SWITZERLAND") ∧
    get_current_user_info (some "FRANCE") ⟨[adminCH], [⟨"TOK", 3, 100, none, none⟩]⟩ 0
        ⟨some "TOK", none⟩ =
      Except.error (tenantMismatchError "FRANCE" "SWITZERLAND") := by
  have h := tenant_enforcement_fails_closed (some "FRANCE") adminCH
  exact ⟨(h.2.1 (by decide)).1,
         h.2.2 ⟨[adminCH], [⟨"TOK", 3, 100, none, none⟩]⟩ 0 ⟨some "TOK", none⟩
           (by decide) (by decide)⟩

/-- C10: implicit tenant default.  With the `COUNTRY` environment variable
unset, `login` behaves exactly as on an instance configured for `FRANCE`, and
`require_country` admits exactly the users whose country is `"FRANCE"`,
rejecting everyone else with the 403 tenant-mismatch error — there is no
failure on missing tenant configuration. -/
theorem default_tenant_is_france (checkpw : String → String → Bool) (db : DB)
    (now : Nat) (tok username password : String) (ip ua : Option String)
    (u : User) :
    login checkpw none db now tok username password ip ua =
      login checkpw (some "FRANCE") db now tok username password ip ua ∧
    (require_country none u = Except.ok u ↔ u.country = "FRANCE") ∧
    (u.country ≠ "FRANCE" →
      require_country none u =
        Except.error (tenantMismatchError "FRANCE" u.country)) := by
  refine ⟨rfl, ?_, fun h => require_country_mismatch none u h⟩
  simpa using require_country_ok_iff none u u

/-- Witness for C10 at a concrete input: with no `COUNTRY` configured, the
FRANCE researcher is admitted and the SWITZERLAND admin is rejected. -/
theorem default_tenant_is_france_witness :
    require_country none aliceFR = Except.ok aliceFR ∧
    require_country none adminCH =
      Except.error (tenantMismatchError "FRANCE" "SWITZERLAND") := by
  refine ⟨?_, ?_⟩
  · exact (default_tenant_is_france checkFix dbFix 0 "T" "alice" "alicepw" none none
      aliceFR).2.1.mpr (by decide)
  · exact (default_tenant_is_france checkFix dbFix 0 "T" "alice" "alicepw" none none
      adminCH).2.2 (by decide)

/-- C8: deterministic token-transport precedence.  When the request carries a
(nonempty) `auth_token` cookie, identification resolves the cookie's token,
whatever the `Authorization` header holds; when no cookie token is present,
the header is consulted only if it starts with the literal `"Bearer "`, in
which case its second space-separated chunk is resolved, and otherwise no
user is identified. -/
theorem token_transport_precedence (db : DB) (now : Nat) (c a : Option String) :
    (∀ t, c = some t → t ≠ "" →
      get_current_user db now ⟨c, a⟩ = verify_session db now t) ∧
    ((c = none ∨ c = some "") →
      (a = none → get_current_user db now ⟨c, a⟩ = none) ∧
      (∀ h, a = some h → pyStartsWith h "Bearer " = false →
        get_current_user db now ⟨c, a⟩ = none) ∧
      (∀ h, a = some h → pyStartsWith h "Bearer " = true →
        get_current_user db now ⟨c, a⟩ =
          (if (pySplitSpace h).getD 1 "" = "" then none
           else verify_session db now ((pySplitSpace h).getD 1 "")))) := by
  constructor
  · intro t hc ht
    subst hc
    simp [get_current_user, effectiveToken, ht]
  · intro hc
    refine ⟨?_, ?_, ?_⟩
    · intro ha
      subst ha
      rcases hc with hc | hc <;> subst hc <;> rfl
    · intro h ha hpre
      subst ha
      rcases hc with hc | hc <;> subst hc <;>
        simp [get_current_user, effectiveToken, hpre]
    · intro h ha hpre
      subst ha
      rcases hc with hc | hc <;> subst hc <;>
        (simp only [List.getD]
         by_cases hemp : (pySplitSpace h)[1]?.getD "" = "" <;>
           simp [get_current_user, effectiveToken, hpre, hemp])

/-- Witness for C8 at concrete inputs: with both cookie `"TOK"` and header
`"Bearer OTHER"` present the cookie token is resolved; with only the header
present its bearer token is resolved. -/
theorem token_transport_precedence_witness :
    get_current_user dbFix 0 ⟨some "TOK", some "Bearer OTHER"⟩ =
      verify_session dbFix 0 "TOK" ∧
    get_current_user dbFix 0 ⟨none, some "Bearer TOK"⟩ =
      verify_session dbFix 0 "TOK" := by
  constructor
  · exact (token_transport_precedence dbFix 0 (some "TOK")
      (some "Bearer OTHER")).1 "TOK" rfl (by decide)
  · have h := ((token_transport_precedence dbFix 0 none
      (some "Bearer TOK")).2 (Or.inl rfl)).2.2 "Bearer TOK" rfl (by decide)
    rw [h]
    decide

/-- C6: global username uniqueness.  `create_user` fails with the
duplicate-username error exactly when some user anywhere in the store — under
any country — already carries the requested username; otherwise it succeeds
and inserts the user. -/
theorem create_user_global_username_uniqueness (hashfn : String → String)
    (db : DB) (newId : Nat) (username password country role : String)
    (email full_name : Option String) :
    ((∃ u ∈ db.users, u.username = username) →
      create_user hashfn db newId username password country role email full_name =
        Except.error duplicateUsernameError) ∧
    ((∀ u ∈ db.users, u.username ≠ username) →
      ∃ nu db2,
        create_user hashfn db newId username password country role email full_name =
          Except.ok (nu, db2) ∧
        nu.username = username ∧ nu.country = country ∧
        db2.users = db.users ++ [nu]) := by
  constructor
  · rintro ⟨u, hu, huname⟩
    unfold create_user
    rw [if_pos]
    have hp : (fun v : User => v.username == username) u = true := by
      simp [huname]
    rw [List.find?_isSome]
    exact ⟨u, hu, hp⟩
  · intro hnone
    unfold create_user
    rw [if_neg]
    · exact ⟨_, _, rfl, rfl, rfl, rfl⟩
    · intro hsome
      rcases List.find?_isSome.mp hsome with ⟨u, hu, hp⟩
      exact hnone u hu (by simpa using hp)

/-- Witness for C6 at concrete inputs: creating `"alice"` again fails with the
duplicate-username error even though the duplicate would live under
`"SWITZERLAND"` while the existing `alice` is under `"FRANCE"`, and a fresh
username succeeds. -/
theorem create_user_global_username_uniqueness_witness :
    create_user hashFix dbFix 9 "alice" "pw2" "SWITZERLAND" "chercheur_switzerland"
        none none =
      Except.error duplicateUsernameError ∧
    ∃ nu db2, create_user hashFix dbFix 9 "newbie" "pw2" "FRANCE" "chercheur_france"
        none none = Except.ok (nu, db2) := by
  constructor
  · exact (create_user_global_username_uniqueness hashFix dbFix 9 "alice" "pw2"
      "SWITZERLAND" "chercheur_switzerland" none none).1
      ⟨aliceFR, by decide, by decide⟩
  · rcases (create_user_global_username_uniqueness hashFix dbFix 9 "newbie" "pw2"
      "FRANCE" "chercheur_france" none none).2 (by decide)
      with ⟨nu, db2, hok, _⟩
    exact ⟨nu, db2, hok⟩

/-- C9 counterexample: the logout endpoint ignores the bearer-header
transport.  A request carrying a valid session token only in the
`Authorization: Bearer` header identifies a user (the token is "current"),
yet `logout` returns success while leaving the session store untouched: the
same token still resolves afterwards, contradicting the claim that logout
deletes the session of a header-presented token. -/
theorem logout_header_token_counterexample :
    (get_current_user dbFix 0 ⟨none, some "Bearer TOK"⟩).isSome = true ∧
    logout dbFix ⟨none, some "Bearer TOK"⟩ = ("Logout successful", dbFix) ∧
    (verify_session (logout dbFix ⟨none, some "Bearer TOK"⟩).2 0 "TOK").isSome = true := by
  decide

/-- C9 (amended): the logout endpoint reads the token from the `auth_token`
cookie only; when a (nonempty) cookie token is present its session is
deleted, otherwise the store is untouched; the response is
`"Logout successful"` unconditionally, and deleting an unknown or
already-deleted token is a no-op, so logout is idempotent. -/
theorem logout_cookie_only_contract (db : DB) (c a : Option String) :
    (logout db ⟨c, a⟩).1 = "Logout successful" ∧
    (∀ t, c = some t → t ≠ "" → (logout db ⟨c, a⟩).2 = delete_session db t) ∧
    ((c = none ∨ c = some "") → (logout db ⟨c, a⟩).2 = db) ∧
    (∀ t, (∀ s ∈ db.sessions, s.token ≠ t) → delete_session db t = db) := by
  refine ⟨rfl, ?_, ?_, ?_⟩
  · intro t hc ht
    subst hc
    simp [logout, ht]
  · rintro (hc | hc) <;> subst hc <;> rfl
  · intro t hno
    unfold delete_session
    have : db.sessions.filter (fun s => !(s.token == t)) = db.sessions := by
      rw [List.filter_eq_self]
      intro s hs
      simp [hno s hs]
    rw [this]

/-- Witness for C9 (amended) at concrete inputs: a cookie-presented token's
session is deleted, a cookie-less request leaves the store untouched, and
deleting the unknown token `"GONE"` is a no-op. -/
theorem logout_cookie_only_contract_witness :
    (logout dbFix ⟨some "TOK", none⟩).2 = delete_session dbFix "TOK" ∧
    (logout dbFix ⟨none, none⟩).2 = dbFix ∧
    delete_session dbFix "GONE" = dbFix := by
  refine ⟨?_, ?_, ?_⟩
  · exact (logout_cookie_only_contract dbFix (some "TOK") none).2.1 "TOK" rfl (by decide)
  · exact (logout_cookie_only_contract dbFix none none).2.2.1 (Or.inl rfl)
  · exact (logout_cookie_only_contract dbFix none none).2.2.2 "GONE" (by decide)

/-- C4 counterexample: a FRANCE admin caller targeting the SWITZERLAND admin
(an `admin_`-role user of a foreign tenant) gets the foreign-tenant error,
not the protected-role error — the tenant check runs first — so the claim
"fails with ProtectedRole … regardless … of the target's tenant" is false. -/
theorem delete_admin_cross_tenant_counterexample :
    delete_user dbFix 3 "FRANCE" = Except.error foreignTenantError ∧
    foreignTenantError ≠ protectedRoleError ∧
    pyStartsWith adminCH.role "admin_" = true := by
  decide

/-- C4 (amended): no user whose role starts with `admin_` can ever be deleted
through `delete_user` — the call never succeeds, so the target's record is
unchanged, for every caller country; when the target is in the caller's own
country the failure is the protected-role error, while a cross-tenant admin
target fails earlier with the foreign-tenant error. -/
theorem delete_user_admin_protected (db : DB) (user_id : Nat)
    (admin_country : String) (u : User)
    (hfind : db.users.find? (fun v => v.id_user == user_id) = some u)
    (hadmin : pyStartsWith u.role "admin_" = true) :
    (∀ r db2, delete_user db user_id admin_country ≠ Except.ok (r, db2)) ∧
    (u.country = admin_country →
      delete_user db user_id admin_country = Except.error protectedRoleError) ∧
    (u.country ≠ admin_country →
      delete_user db user_id admin_country = Except.error foreignTenantError) := by
  unfold delete_user
  rw [hfind]
  by_cases hc : u.country = admin_country <;> simp [hc, hadmin]

/-- Witness for C4 (amended) at concrete inputs: the FRANCE admin target
fails with the protected-role error for a FRANCE caller and with the
foreign-tenant error for a SWITZERLAND caller; neither call succeeds. -/
theorem delete_user_admin_protected_witness :
    delete_user dbFix 2 "FRANCE" = Except.error protectedRoleError ∧
    delete_user dbFix 2 "SWITZERLAND" = Except.error foreignTenantError ∧
    ∀ r db2, delete_user dbFix 2 "FRANCE" ≠ Except.ok (r, db2) := by
  have hFR := delete_user_admin_protected dbFix 2 "FRANCE" adminFR
    (by decide) (by decide)
  have hCH := delete_user_admin_protected dbFix 2 "SWITZERLAND" adminFR
    (by decide) (by decide)
  exact ⟨hFR.2.1 (by decide), hCH.2.2 (by decide), hFR.1⟩

/-- C5 counterexample: a FRANCE admin with a valid session requesting role
`"researcher_france"` — a member of the claim's valid set
`{researcher_<tenant>, admin_<tenant>}` — is rejected with the invalid-role
error, while `"chercheur_france"` succeeds: the source spells the
researcher-kind role `chercheur`, so the claimed set is wrong. -/
theorem researcher_role_rejected_counterexample :
    create_new_user hashFix (some "FRANCE") dbFix 9 0 ⟨some "TOK", none⟩
        ⟨"newbie", "pw", "researcher_france", none, none⟩ =
      Except.error (invalidRoleError "FRANCE" ["chercheur_france", "admin_france"]) ∧
    (create_new_user hashFix (some "FRANCE") dbFix 9 0 ⟨some "TOK", none⟩
        ⟨"newbie", "pw", "chercheur_france", none, none⟩).isOk = true := by
  decide

/-- C5 (amended): `create_new_user` fails with the invalid-role error unless
the requested role is one of exactly `{chercheur_<tenant>, admin_<tenant>}`
(the source's spelling of the researcher kind) where `<tenant>` is the
calling admin's own country lower-cased; consequently every created user's
role is one of those two shapes for the user's own country — so the role's
tenant suffix equals the user's country, which equals the instance country —
and a role for a foreign tenant is rejected at creation time. -/
theorem create_new_user_role_validation (hashfn : String → String)
    (envCountry : Option String) (db : DB) (newId now : Nat) (req : ApiRequest)
    (ud : CreateUserRequest) :
    (∀ nu db2,
      create_new_user hashfn envCountry db newId now req ud = Except.ok (nu, db2) →
      nu.role = ud.role ∧ nu.country = envCountry.getD "FRANCE" ∧
      (nu.role = "chercheur_" ++ pyToLower nu.country ∨
       nu.role = "admin_" ++ pyToLower nu.country)) ∧
    (∀ cu, require_auth db now req = Except.ok cu →
      cu.country = envCountry.getD "FRANCE" →
      pyStartsWith cu.role "admin_" = true →
      ud.role ≠ "chercheur_" ++ pyToLower cu.country →
      ud.role ≠ "admin_" ++ pyToLower cu.country →
      create_new_user hashfn envCountry db newId now req ud =
        Except.error (invalidRoleError cu.country
          ["chercheur_" ++ pyToLower cu.country, "admin_" ++ pyToLower cu.country])) := by
  constructor
  · intro nu db2 hok
    unfold create_new_user at hok
    cases hra : require_auth db now req with
    | error e => rw [hra, except_bind_error] at hok; exact absurd hok (by simp)
    | ok v =>
      rw [hra, except_bind_ok] at hok
      cases hrc : require_country envCountry v with
      | error e => rw [hrc, except_bind_error] at hok; exact absurd hok (by simp)
      | ok w =>
        obtain ⟨hcountry, hw⟩ := (require_country_ok_iff envCountry v w).mp hrc
        subst hw
        rw [hrc, except_bind_ok] at hok
        cases hadm : pyStartsWith w.role "admin_" with
        | false => rw [hadm] at hok; simp at hok
        | true =>
          rw [hadm] at hok
          simp only [Bool.not_true, Bool.false_eq_true, if_false] at hok
          cases hcont :
              (["chercheur_" ++ pyToLower w.country,
                "admin_" ++ pyToLower w.country].contains ud.role) with
          | false => rw [hcont] at hok; simp at hok
          | true =>
            rw [hcont] at hok
            simp only [Bool.not_true, Bool.false_eq_true, if_false] at hok
            unfold create_user at hok
            cases hdup : (db.users.find? (fun u => u.username == ud.username)).isSome with
            | true => rw [hdup] at hok; simp at hok
            | false =>
              rw [hdup] at hok
              simp only [Bool.false_eq_true, if_false, Except.ok.injEq,
                Prod.mk.injEq] at hok
              obtain ⟨hnu, _⟩ := hok
              subst hnu
              simp only [List.contains_cons, List.contains_nil, Bool.or_false,
                Bool.or_eq_true, beq_iff_eq] at hcont
              exact ⟨rfl, hcountry, by simpa using hcont⟩
  · intro cu hra hcountry hadm h1 h2
    unfold create_new_user
    rw [hra, except_bind_ok,
        (require_country_ok_iff envCountry cu cu).mpr ⟨hcountry, rfl⟩,
        except_bind_ok, hadm]
    simp only [Bool.not_true, Bool.false_eq_true, if_false]
    have hcont :
        (["chercheur_" ++ pyToLower cu.country,
          "admin_" ++ pyToLower cu.country].contains ud.role) = false := by
      simp only [List.contains_cons, List.contains_nil, Bool.or_false,
        Bool.or_eq_false_iff, beq_eq_false_iff_ne, ne_eq]
      exact ⟨h1, h2⟩
    rw [hcont]
    rfl

/-- Witness for C5 (amended) at concrete inputs: the FRANCE admin's creation
of a `chercheur_france` user yields a FRANCE user with that exact role, and
the foreign role `admin_switzerland` is rejected with the invalid-role
error. -/
theorem create_new_user_role_validation_witness :
    (∃ nu db2,
      create_new_user hashFix (some "FRANCE") dbFix 9 0 ⟨some "TOK", none⟩
          ⟨"newbie", "pw", "chercheur_france", none, none⟩ = Except.ok (nu, db2) ∧
      nu.role = "chercheur_france" ∧ nu.country = "FRANCE") ∧
    create_new_user hashFix (some "FRANCE") dbFix 9 0 ⟨some "TOK", none⟩
        ⟨"newbie", "pw", "admin_switzerland", none, none⟩ =
      Except.error (invalidRoleError "FRANCE" ["chercheur_france", "admin_france"]) := by
  constructor
  · have hrun :
        create_new_user hashFix (some "FRANCE") dbFix 9 0 ⟨some "TOK", none⟩
            ⟨"newbie", "pw", "chercheur_france", none, none⟩ =
          Except.ok
            (⟨9, "newbie", "Hpw", "FRANCE", "chercheur_france", none, none, true, none⟩,
             ⟨dbFix.users ++
                [⟨9, "newbie", "Hpw", "FRANCE", "chercheur_france", none, none, true, none⟩],
              dbFix.sessions⟩) := by decide
    have h := (create_new_user_role_validation hashFix (some "FRANCE") dbFix 9 0
      ⟨some "TOK", none⟩ ⟨"newbie", "pw", "chercheur_france", none, none⟩).1 _ _ hrun
    exact ⟨_, _, hrun, by decide, h.2.1⟩
  · have h := (create_new_user_role_validation hashFix (some "FRANCE") dbFix 9 0
      ⟨some "TOK", none⟩ ⟨"newbie", "pw", "admin_switzerland", none, none⟩).2
      { adminFR with last_login := adminFR.last_login } (by decide) (by decide)
      (by decide) (by decide) (by decide)
    simpa using h

/-- Helper: whenever authentication fails, `login` raises exactly the one
generic invalid-credentials error. -/
theorem login_error_of_auth_failure (checkpw : String → String → Bool)
    (envCountry : Option String) (db : DB) (now : Nat) (tok username password : String)
    (ip ua : Option String)
    (h : (authenticate_user checkpw db now username password
        (envCountry.getD "FRANCE")).1 = none) :
    (login checkpw envCountry db now tok username password ip ua).1 =
      Except.error invalidCredentialsError := by
  unfold login
  rcases hA : authenticate_user checkpw db now username password
    (envCountry.getD "FRANCE") with ⟨fst, snd⟩
  rw [hA] at h
  simp only at h
  subst h
  simp [hA]

/-- Helper: authentication returns no user when no user of the requested
country carries the username (wrong tenant or unknown username). -/
theorem authenticate_user_none_of_wrong_tenant (checkpw : String → String → Bool)
    (db : DB) (now : Nat) (username password country : String)
    (h : ∀ u ∈ db.users, u.username = username → u.country ≠ country) :
    (authenticate_user checkpw db now username password country).1 = none := by
  unfold authenticate_user
  have hf : db.users.find? (fun u =>
      u.username == username && u.country == country && u.is_active) = none := by
    rw [List.find?_eq_none]
    intro u hu hp
    simp only [Bool.and_eq_true, beq_iff_eq] at hp
    exact h u hu hp.1.1 hp.1.2
  rw [hf]

/-- Helper: authentication returns no user when the password check fails for
every stored hash (wrong password). -/
theorem authenticate_user_none_of_wrong_password (checkpw : String → String → Bool)
    (db : DB) (now : Nat) (username password country : String)
    (h : ∀ u ∈ db.users, checkpw password u.password_hash = false) :
    (authenticate_user checkpw db now username password country).1 = none := by
  unfold authenticate_user
  cases hf : db.users.find? (fun u =>
      u.username == username && u.country == country && u.is_active) with
  | none => rfl
  | some u =>
    dsimp only
    rw [h u (List.mem_of_find?_eq_some hf)]
    rfl

/-- C2: uniform login failure (no user enumeration).  Whenever authentication
fails — for any reason — `login` returns the single generic 401
invalid-credentials error; in particular, in a store where `alice` exists
only under `FRANCE`, logging in as `alice` with any password against a `USA`
instance and logging in against the `FRANCE` instance with a wrong password
(one rejected for every stored hash) return exactly the same error value. -/
theorem login_no_user_enumeration (checkpw : String → String → Bool) (db : DB)
    (now now2 : Nat) (tok tok2 pw pw2 : String) (ip ip2 ua ua2 : Option String)
    (halice : ∀ u ∈ db.users, u.username = "alice" → u.country = "FRANCE")
    (hwrong : ∀ u ∈ db.users, checkpw pw2 u.password_hash = false) :
    (∀ (envC : Option String) nowA tokA unameA pwA ipA uaA,
      (authenticate_user checkpw db nowA unameA pwA (envC.getD "FRANCE")).1 = none →
      (login checkpw envC db nowA tokA unameA pwA ipA uaA).1 =
        Except.error invalidCredentialsError) ∧
    (login checkpw (some "USA") db now tok "alice" pw ip ua).1 =
      Except.error invalidCredentialsError ∧
    (login checkpw (some "FRANCE") db now2 tok2 "alice" pw2 ip2 ua2).1 =
      Except.error invalidCredentialsError ∧
    (login checkpw (some "USA") db now tok "alice" pw ip ua).1 =
      (login checkpw (some "FRANCE") db now2 tok2 "alice" pw2 ip2 ua2).1 := by
  have hUSA : (login checkpw (some "USA") db now tok "alice" pw ip ua).1 =
      Except.error invalidCredentialsError :=
    login_error_of_auth_failure checkpw (some "USA") db now tok "alice" pw ip ua
      (authenticate_user_none_of_wrong_tenant checkpw db now "alice" pw "USA"
        (fun u hu hname => by rw [halice u hu hname]; intro hc; exact absurd hc (by decide)))
  have hFR : (login checkpw (some "FRANCE") db now2 tok2 "alice" pw2 ip2 ua2).1 =
      Except.error invalidCredentialsError :=
    login_error_of_auth_failure checkpw (some "FRANCE") db now2 tok2 "alice" pw2 ip2 ua2
      (authenticate_user_none_of_wrong_password checkpw db now2 "alice" pw2 "FRANCE" hwrong)
  exact ⟨fun envC nowA tokA unameA pwA ipA uaA hA =>
      login_error_of_auth_failure checkpw envC db nowA tokA unameA pwA ipA uaA hA,
    hUSA, hFR, by rw [hUSA, hFR]⟩

/-- Witness for C2 at concrete inputs: in the fixture store (where `alice`
exists only under `FRANCE`), the wrong-tenant login with the correct password
and the right-tenant login with a wrong password return the identical error
value. -/
theorem login_no_user_enumeration_witness :
    (login checkFix (some "USA") dbFix 0 "T1" "alice" "alicepw" none none).1 =
      (login checkFix (some "FRANCE") dbFix 0 "T2" "alice" "WRONG" none none).1 ∧
    (login checkFix (some "USA") dbFix 0 "T1" "alice" "alicepw" none none).1 =
      Except.error invalidCredentialsError ∧
    checkFix "alicepw" aliceFR.password_hash = true := by
  have h := login_no_user_enumeration checkFix dbFix 0 0 "T1" "T2" "alicepw" "WRONG"
    none none none none (by decide) (by decide)
  exact ⟨h.2.2.2, h.2.1, by decide⟩

/-- Helper: a `some` head of a `filterMap` comes from some element of the
list (the SQL `fetchone` returned a row of the query). -/
theorem filterMap_head?_some {α β : Type} {f : α → Option β} {l : List α} {y : β}
    (h : (l.filterMap f).head? = some y) : ∃ x ∈ l, f x = some y := by
  induction l with
  | nil => simp [List.filterMap] at h
  | cons a t ih =>
    rw [List.filterMap_cons] at h
    cases hfa : f a with
    | none =>
      rw [hfa] at h
      rcases ih h with ⟨x, hx, hfx⟩
      exact ⟨x, List.mem_cons_of_mem a hx, hfx⟩
    | some b =>
      rw [hfa] at h
      simp only [List.head?_cons, Option.some.injEq] at h
      subst h
      exact ⟨a, List.mem_cons_self a t, hfa⟩

/-- Helper: when the row function keeps only (occurrences of) a single list
element `s`, the head of the `filterMap` is `f s` (the SQL `fetchone`
returned exactly that row). -/
theorem filterMap_head?_unique {α β : Type} {f : α → Option β} {l : List α}
    {s : α} {y : β} (hmem : s ∈ l) (hs : f s = some y)
    (hothers : ∀ x ∈ l, f x = none ∨ x = s) :
    (l.filterMap f).head? = some y := by
  induction l with
  | nil => cases hmem
  | cons a t ih =>
    rw [List.filterMap_cons]
    cases hfa : f a with
    | some b =>
      have has : a = s := by
        rcases hothers a (List.mem_cons_self a t) with h | h
        · rw [h] at hfa; cases hfa
        · exact h
      subst has
      rw [hs] at hfa
      injection hfa with hby
      subst hby
      rfl
    | none =>
      have hst : s ∈ t := by
        rcases List.mem_cons.mp hmem with h | h
        · subst h; rw [hs] at hfa; cases hfa
        · exact h
      exact ih hst (fun x hx => hothers x (List.mem_cons_of_mem a hx))

/-- C7: session resolution semantics.  In a store with unique user ids and
unique session tokens (the primary keys), `verify_session` returns `none`
exactly when no stored session carries the token with an expiry strictly
later than now and an active owning user — i.e. unknown token, expiry not
strictly later than now, or inactive owner all map to absent — and whenever
it returns a user, that user is the active owner of such an unexpired
session. -/
theorem verify_session_resolution (db : DB) (now : Nat) (tok : String)
    (hid : ∀ u ∈ db.users, ∀ v ∈ db.users, u.id_user = v.id_user → u = v)
    (htok : ∀ s ∈ db.sessions, ∀ s2 ∈ db.sessions, s.token = s2.token → s = s2) :
    (verify_session db now tok = none ↔
      ¬ ∃ s ∈ db.sessions, s.token = tok ∧ now < s.expires_at ∧
        ∃ u ∈ db.users, u.id_user = s.user_id ∧ u.is_active = true) ∧
    (∀ u, verify_session db now tok = some u →
      u ∈ db.users ∧ u.is_active = true ∧
      ∃ s ∈ db.sessions, s.token = tok ∧ now < s.expires_at ∧
        s.user_id = u.id_user) := by
  have hsome : ∀ u, verify_session db now tok = some u →
      u ∈ db.users ∧ u.is_active = true ∧
      ∃ s ∈ db.sessions, s.token = tok ∧ now < s.expires_at ∧
        s.user_id = u.id_user := by
    intro u hv
    unfold verify_session at hv
    cases hj : sessionJoin db now tok with
    | none => rw [hj] at hv; cases hv
    | some p =>
      rcases p with ⟨w, s⟩
      rw [hj] at hv
      dsimp only at hv
      cases hact : w.is_active with
      | false => rw [hact] at hv; simp at hv
      | true =>
        rw [hact] at hv
        simp only [if_true, Option.some.injEq] at hv
        subst hv
        rcases filterMap_head?_some hj with ⟨s0, hs0mem, hf⟩
        by_cases hc : (s0.token == tok && decide (now < s0.expires_at)) = true
        · rw [if_pos hc] at hf
          cases hfind : db.users.find? (fun v => v.id_user == s0.user_id) with
          | none => rw [hfind] at hf; cases hf
          | some w2 =>
            rw [hfind] at hf
            simp only [Option.map_some', Option.some.injEq, Prod.mk.injEq] at hf
            obtain ⟨hw2, hs0⟩ := hf
            subst hw2
            subst hs0
            simp only [Bool.and_eq_true, beq_iff_eq, decide_eq_true_eq] at hc
            have hwmem := List.mem_of_find?_eq_some hfind
            have hwid := List.find?_some hfind
            simp only [beq_iff_eq] at hwid
            exact ⟨hwmem, hact, s0, hs0mem, hc.1, hc.2, hwid.symm⟩
        · rw [if_neg hc] at hf
          cases hf
  refine ⟨⟨?_, ?_⟩, hsome⟩
  · intro hnone hex
    rcases hex with ⟨s, hsmem, hstok, hsexp, u, humem, huid, huact⟩
    have hfindu : db.users.find? (fun v => v.id_user == s.user_id) = some u := by
      have hx : ∃ x, x ∈ db.users ∧ (fun v : User => v.id_user == s.user_id) x = true :=
        ⟨u, humem, by simp [huid]⟩
      rcases Option.isSome_iff_exists.mp (List.find?_isSome.mpr hx) with ⟨w, hw⟩
      have hwid := List.find?_some hw
      simp only [beq_iff_eq] at hwid
      have := hid w (List.mem_of_find?_eq_some hw) u humem (by rw [hwid, huid])
      rwa [this] at hw
    have hfs : (fun s2 : Session =>
        if s2.token == tok && decide (now < s2.expires_at) then
          (db.users.find? (fun v => v.id_user == s2.user_id)).map (fun v => (v, s2))
        else none) s = some (u, s) := by
      dsimp only
      rw [if_pos (by simp [hstok, hsexp]), hfindu]
      rfl
    have hothers : ∀ x ∈ db.sessions, (fun s2 : Session =>
        if s2.token == tok && decide (now < s2.expires_at) then
          (db.users.find? (fun v => v.id_user == s2.user_id)).map (fun v => (v, s2))
        else none) x = none ∨ x = s := by
      intro x hx
      by_cases hxt : x.token = tok
      · exact Or.inr (htok x hx s hsmem (by rw [hxt, hstok]))
      · left
        dsimp only
        rw [if_neg]
        simp [hxt]
    have hjoin : sessionJoin db now tok = some (u, s) :=
      filterMap_head?_unique hsmem hfs hothers
    unfold verify_session at hnone
    rw [hjoin] at hnone
    dsimp only at hnone
    rw [huact] at hnone
    simp at hnone
  · intro hnex
    cases hv : verify_session db now tok with
    | none => rfl
    | some u =>
      rcases hsome u hv with ⟨humem, huact, s, hsmem, hstok, hsexp, hsuid⟩
      exact absurd ⟨s, hsmem, hstok, hsexp, u, humem, hsuid.symm, huact⟩ hnex

/-- Witness for C7 at concrete inputs: in the fixture store the unexpired
session token resolves to its active owner, and an unknown token resolves to
absent. -/
theorem verify_session_resolution_witness :
    verify_session dbFix 0 "TOK" = some adminFR ∧
    verify_session dbFix 0 "GONE" = none ∧
    verify_session dbFix 100 "TOK" = none := by
  have hid : ∀ u ∈ dbFix.users, ∀ v ∈ dbFix.users, u.id_user = v.id_user → u = v := by
    decide
  have htok : ∀ s ∈ dbFix.sessions, ∀ s2 ∈ dbFix.sessions,
      s.token = s2.token → s = s2 := by decide
  refine ⟨by decide, ?_, ?_⟩
  · exact ((verify_session_resolution dbFix 0 "GONE" hid htok).1).mpr (by decide)
  · exact ((verify_session_resolution dbFix 100 "TOK" hid htok).1).mpr (by decide)

/-- C3: login/identify round trip.  For a store with unique user ids, a fresh
session token, and a valid (username, password, tenant) triple — the lookup
by username AND instance country AND active finds a user whose stored hash
accepts the password — `login` succeeds, returns the issued token together
with the user's public view, and `verify_session` on that token against the
updated store immediately afterwards returns a user whose username and
country equal the ones given to login. -/
theorem login_identify_roundtrip (checkpw : String → String → Bool)
    (envCountry : Option String) (db : DB) (now : Nat)
    (tok username password : String) (ip ua : Option String) (u0 : User)
    (hid : ∀ u ∈ db.users, ∀ v ∈ db.users, u.id_user = v.id_user → u = v)
    (hfresh : ∀ s ∈ db.sessions, s.token ≠ tok)
    (hfind : db.users.find? (fun u =>
        u.username == username && u.country == envCountry.getD "FRANCE" &&
        u.is_active) = some u0)
    (hpw : checkpw password u0.password_hash = true) :
    ∃ resp db2,
      login checkpw envCountry db now tok username password ip ua =
        (Except.ok resp, db2) ∧
      resp.token = tok ∧ resp.username = username ∧
      resp.country = envCountry.getD "FRANCE" ∧
      ∃ v, verify_session db2 now tok = some v ∧
        v.username = username ∧ v.country = envCountry.getD "FRANCE" := by
  have hp := List.find?_some hfind
  simp only [Bool.and_eq_true, beq_iff_eq] at hp
  obtain ⟨⟨huname, hucountry⟩, huact⟩ := hp
  have hmem0 := List.mem_of_find?_eq_some hfind
  have hlogin :
      login checkpw envCountry db now tok username password ip ua =
        (Except.ok ⟨tok, u0.username, u0.country, u0.role, u0.full_name⟩,
         ⟨db.users.map (fun v =>
            if v.id_user == u0.id_user then { v with last_login := some now } else v),
          db.sessions ++ [⟨tok, u0.id_user, now + JWT_EXPIRE_HOURS, ip, ua⟩]⟩) := by
    unfold login authenticate_user create_session
    dsimp only
    rw [hfind]
    dsimp only
    rw [hpw]
    rfl
  set fupd : User → User := fun v =>
    if v.id_user == u0.id_user then { v with last_login := some now } else v with hfupd
  have hfupd_id : ∀ v, (fupd v).id_user = v.id_user := by
    intro v
    by_cases h : v.id_user = u0.id_user <;> simp [hfupd, h]
  have hfind_id : db.users.find? (fun v => v.id_user == u0.id_user) = some u0 := by
    have hx : ∃ x, x ∈ db.users ∧ (fun v : User => v.id_user == u0.id_user) x = true :=
      ⟨u0, hmem0, by simp⟩
    rcases Option.isSome_iff_exists.mp (List.find?_isSome.mpr hx) with ⟨w, hw⟩
    have hwid := List.find?_some hw
    simp only [beq_iff_eq] at hwid
    have := hid w (List.mem_of_find?_eq_some hw) u0 hmem0 hwid
    rwa [this] at hw
  have hfind_map :
      (db.users.map fupd).find? (fun v => v.id_user == u0.id_user) =
        some (fupd u0) := by
    rw [List.find?_map]
    have hcomp : ((fun v : User => v.id_user == u0.id_user) ∘ fupd) =
        (fun v : User => v.id_user == u0.id_user) := by
      funext v
      simp [Function.comp, hfupd_id v]
    rw [hcomp, hfind_id]
    rfl
  have hfu0 : fupd u0 = { u0 with last_login := some now } := by
    simp [hfupd]
  refine ⟨⟨tok, u0.username, u0.country, u0.role, u0.full_name⟩, _, hlogin,
    rfl, huname, hucountry, fupd u0, ?_, ?_, ?_⟩
  · unfold verify_session
    have hjoin :
        sessionJoin
          ⟨db.users.map fupd,
           db.sessions ++ [⟨tok, u0.id_user, now + JWT_EXPIRE_HOURS, ip, ua⟩]⟩
          now tok =
          some (fupd u0, ⟨tok, u0.id_user, now + JWT_EXPIRE_HOURS, ip, ua⟩) := by
      have hmemS : (⟨tok, u0.id_user, now + JWT_EXPIRE_HOURS, ip, ua⟩ : Session) ∈
          db.sessions ++ [⟨tok, u0.id_user, now + JWT_EXPIRE_HOURS, ip, ua⟩] :=
        List.mem_append_right _ (List.mem_singleton.mpr rfl)
      have hfS : (fun s : Session =>
          if s.token == tok && decide (now < s.expires_at) then
            ((db.users.map fupd).find? (fun u => u.id_user == s.user_id)).map
              (fun u => (u, s))
          else none) ⟨tok, u0.id_user, now + JWT_EXPIRE_HOURS, ip, ua⟩ =
          some (fupd u0, ⟨tok, u0.id_user, now + JWT_EXPIRE_HOURS, ip, ua⟩) := by
        dsimp only
        rw [if_pos (by simp [JWT_EXPIRE_HOURS]), hfind_map]
        rfl
      have hoth : ∀ x ∈ db.sessions ++ [⟨tok, u0.id_user, now + JWT_EXPIRE_HOURS, ip, ua⟩],
          (fun s : Session =>
            if s.token == tok && decide (now < s.expires_at) then
              ((db.users.map fupd).find? (fun u => u.id_user == s.user_id)).map
                (fun u => (u, s))
            else none) x = none ∨
          x = ⟨tok, u0.id_user, now + JWT_EXPIRE_HOURS, ip, ua⟩ := by
        intro x hx
        rcases List.mem_append.mp hx with hx | hx
        · left
          dsimp only
          rw [if_neg]
          simp [hfresh x hx]
        · right
          exact List.mem_singleton.mp hx
      exact filterMap_head?_unique hmemS hfS hoth
    rw [hjoin]
    dsimp only
    have : (fupd u0).is_active = true := by rw [hfu0]; exact huact
    rw [this]
    simp
  · rw [hfu0]
    exact huname
  · rw [hfu0]
    exact hucountry

/-- Witness for C3 at concrete inputs: logging `alice` into the FRANCE
instance with her correct password issues token `"T9"`, and resolving `"T9"`
against the updated store returns a user with `alice`'s username and
country. -/
theorem login_identify_roundtrip_witness :
    ∃ resp db2,
      login checkFix (some "FRANCE") dbFix 0 "T9" "alice" "alicepw" none none =
        (Except.ok resp, db2) ∧
      resp.token = "T9" ∧ resp.username = "alice" ∧ resp.country = "FRANCE" ∧
      ∃ v, verify_session db2 0 "T9" = some v ∧
        v.username = "alice" ∧ v.country = "FRANCE" := by
  exact login_identify_roundtrip checkFix (some "FRANCE") dbFix 0 "T9" "alice"
    "alicepw" none none aliceFR (by decide) (by decide) (by decide) (by decide)

end PandemicAuth
